import Mathlib

/-!
Shallow embedding of `src/main.py` (kopiwraiting-ai-bot): a Telegram bot that
relays user copywriting text or images to a generation backend and sends back a
"roast", tracking per-user usage counters in a SQLite table.

Modelling conventions:
* The SQLite `users` table is a `List UserRecord`; SQL statements become pure
  list operations.  The sqlite error branches (`except sqlite3.Error`) are not
  reachable in the pure model, so the happy-path return values are used.
* The generation client (`_generate_text_response` / `_generate_image_response`)
  is abstracted as a unit of work `Nat → Except Unit String`: attempt `i`
  either raises (`Except.error ()`) or returns content (`Except.ok s`, where
  `s = ""` models an empty-but-successful backend response).
* Telegram transport side effects (status edits, sleeps, replies) are recorded
  as events / message lists instead of being performed.
-/

/-- A row of the `users` table:
`user_id INTEGER PRIMARY KEY, username TEXT, join_time TEXT,
usage_count INTEGER DEFAULT 0, image_usage_count INTEGER DEFAULT 0`. -/
structure UserRecord where
  user_id : Nat
  username : String
  join_time : String
  usage_count : Nat
  image_usage_count : Nat
deriving DecidableEq, Repr

namespace DatabaseManager

/-- `add_user`: check `SELECT user_id FROM users WHERE user_id = ?`; if a row
exists, log and return `False`; otherwise `INSERT INTO users (user_id,
username, join_time) VALUES (?, ?, ?)` (counters take their `DEFAULT 0`) and
return `True`.  `join_time` (`time.strftime(...)`) is passed in as a value. -/
def add_user (db : List UserRecord) (uid : Nat) (username : String)
    (join_time : String) : List UserRecord × Bool :=
  if db.any (fun r => r.user_id == uid) then
    (db, false)
  else
    (db ++ [⟨uid, username, join_time, 0, 0⟩], true)

/-- The two counter columns `_increment_field` is called with. -/
inductive UserField where
  | usage_count
  | image_usage_count
deriving DecidableEq, Repr

/-- Effect of `SET field = field + 1` on one row. -/
def bumpField : UserField → UserRecord → UserRecord
  | .usage_count, r => { r with usage_count := r.usage_count + 1 }
  | .image_usage_count, r => { r with image_usage_count := r.image_usage_count + 1 }

/-- `_increment_field`: `UPDATE users SET {field} = {field} + 1 WHERE user_id = ?`,
then `commit` and `return True`.  The SQL `UPDATE` touches every row matching
the `WHERE` clause — zero rows is not an error — and the function returns
`True` unless `sqlite3.Error` is raised (unreachable in the pure model). -/
def _increment_field (db : List UserRecord) (uid : Nat) (field : UserField) :
    List UserRecord × Bool :=
  (db.map (fun r => if r.user_id == uid then bumpField field r else r), true)

/-- `increment_usage_count`: `_increment_field(user_id, "usage_count")`. -/
def increment_usage_count (db : List UserRecord) (uid : Nat) :
    List UserRecord × Bool :=
  _increment_field db uid .usage_count

/-- `increment_image_usage_count`: `_increment_field(user_id, "image_usage_count")`. -/
def increment_image_usage_count (db : List UserRecord) (uid : Nat) :
    List UserRecord × Bool :=
  _increment_field db uid .image_usage_count

end DatabaseManager

/-- `BotMode`: `SPICY = "pedas"`, `SOLUTION = "solusi"`. -/
inductive BotMode where
  | SPICY
  | SOLUTION
deriving DecidableEq, Repr

namespace RoastBot

/-- The prompt template `self.prompts[BotMode.SPICY]` / `[BotMode.SOLUTION]`,
split at its single `{text}` placeholder: the part before the placeholder. -/
def promptPre : BotMode → String
  | .SPICY => "\n            Lo adalah seorang stand up komedi dengan pengalaman lebih dari 10 tahun. Spesialis lo adalah di roasting. Lo paling bisa kalo soal roasting. Ga cuma itu, lo juga ahli dalam copywriting sembari lo jadi stand up komedian. Nah sekarang lo ditugasin buat roasting-in hasil copywriting orang. \n            \n            Lo ga perlu mikirin solusi, lo cukup kasih roasting-an sebagai hiburan. Anggep aja lo sekarang lagi di tongkrongan terus ada temen lo nunjukkin copywriting-nya!\n\n            Lo ga usah intro, langsung kasih roasting pake bahasa sehari-hari yang gaul & friendly kayak lo gue gitu, ga usah formal.\n\n            Nih teks copywriting-nya:\n            \""
  | .SOLUTION => "\n            Lo adalah seorang stand up komedi dengan pengalaman lebih dari 10 tahun. Spesialis lo adalah di roasting. Lo paling bisa kalo soal roasting. Ga cuma itu, lo juga ahli dalam copywriting sembari lo jadi stand up komedian. Nah sekarang lo ditugasin buat roasting-in hasil copywriting orang. \n\n            Karena situasinya lo lagi ditongkrongan sama temen lu yang minta roasting-in copywriting-nya, selain ngasih roasting, lo kasih saran dan solusi juga sekalian ngebuktiin (pamer) skill lo dibidang copywriting yang udah 10 tahun itu.\n\n            Lo ga usah intro, kasih roasting & saran pake bahasa sehari-hari yang gaul & friendly kayak lo gue gitu, ga usah formal.\n\n            Nih teks Copywriting-nya:\n            \""

/-- The part of the template after the `{text}` placeholder (identical for the
two modes in the source). -/
def promptPost : BotMode → String
  | _ => "\"\n\n            lo ga perlu pake format markdown, kasih aja output lo dalam plaintext.\n            "

/-- The full template string `self.prompts[mode]`, with its placeholder
(the interpreted content of the source's triple-quoted literals). -/
def prompts : BotMode → String
  | .SPICY => "\n            Lo adalah seorang stand up komedi dengan pengalaman lebih dari 10 tahun. Spesialis lo adalah di roasting. Lo paling bisa kalo soal roasting. Ga cuma itu, lo juga ahli dalam copywriting sembari lo jadi stand up komedian. Nah sekarang lo ditugasin buat roasting-in hasil copywriting orang. \n            \n            Lo ga perlu mikirin solusi, lo cukup kasih roasting-an sebagai hiburan. Anggep aja lo sekarang lagi di tongkrongan terus ada temen lo nunjukkin copywriting-nya!\n\n            Lo ga usah intro, langsung kasih roasting pake bahasa sehari-hari yang gaul & friendly kayak lo gue gitu, ga usah formal.\n\n            Nih teks copywriting-nya:\n            \"{text}\"\n\n            lo ga perlu pake format markdown, kasih aja output lo dalam plaintext.\n            "
  | .SOLUTION => "\n            Lo adalah seorang stand up komedi dengan pengalaman lebih dari 10 tahun. Spesialis lo adalah di roasting. Lo paling bisa kalo soal roasting. Ga cuma itu, lo juga ahli dalam copywriting sembari lo jadi stand up komedian. Nah sekarang lo ditugasin buat roasting-in hasil copywriting orang. \n\n            Karena situasinya lo lagi ditongkrongan sama temen lu yang minta roasting-in copywriting-nya, selain ngasih roasting, lo kasih saran dan solusi juga sekalian ngebuktiin (pamer) skill lo dibidang copywriting yang udah 10 tahun itu.\n\n            Lo ga usah intro, kasih roasting & saran pake bahasa sehari-hari yang gaul & friendly kayak lo gue gitu, ga usah formal.\n\n            Nih teks Copywriting-nya:\n            \"{text}\"\n\n            lo ga perlu pake format markdown, kasih aja output lo dalam plaintext.\n            "

/-- `self.prompts[current_mode].format(text=user_copywriting)`: the template
contains exactly one replacement field, `{text}`, so Python's `str.format`
yields the template with the user text substituted at that position. -/
def formatPrompt (m : BotMode) (t : String) : String :=
  promptPre m ++ t ++ promptPost m

/-- `self.fallback_text` (the byte content of the source literal). -/
def fallback_text : String :=
  "Waduh, mesin roasting gue lagi error berat nih! \uf8ffüò´\n\nTapi tenang, gue tetep kasih roast spesial buat lo:\n\n\"Hmm, copywriting lo... unik juga ya. Lain dari yang lain. Pokoknya... jangan semangat & jangan berkarya!\" \uf8ffüòâ\n\nIni roast darurat ya, lain kali gue roast beneran deh kalo otak gue udah bener. Coba lagi!"

/-- `self.fallback_image` (the byte content of the source literal). -/
def fallback_image : String :=
  "Waduh, mesin roast gambar gue lagi error berat nih! \uf8ffüò≠\n\nTapi tenang, gue tetep kasih roast spesial buat gambar lo:\n\n\"Hmm, gambar copywriting lo... menarik juga ya. Visualnya... lain dari yang lain. Pokoknya... jangan semangat & jangan berkarya!\" \uf8ffüòâ\n\nIni roast darurat gambar ya, lain kali gue roast beneran deh kalo otak gue udah bener. Coba lagi ya!"

/-- Transport effects emitted inside `_process_with_retry`, in program order:
the status edit at the top of each attempt, the "Hmm, API speechless..."
reply on an empty response, the retry status edit, `time.sleep(retry_delay)`,
and the terminal failure status edit. -/
inductive REvent where
  | statusProcessing
  | emptyNotice
  | statusRetry
  | sleep (d : Nat)
  | statusExhausted
deriving DecidableEq, Repr

/-- Outcome of one `_process_with_retry` run: the returned string, how many
times the unit of work was invoked, and the emitted transport events. -/
structure RetryRun where
  result : String
  calls : Nat
  events : List REvent
deriving DecidableEq, Repr

/-- The `for retry_count in range(1, max_retries + 1)` loop body, with
`fuel = max_retries - retry_count + 1` remaining iterations and `calls`
invocations of the work already made.  `fuel = 0` is the `return
fallback_message` after the loop (dead code for `max_retries = 3`). -/
def retryAux (work : Nat → Except Unit String) (fallback : String) :
    Nat → Nat → List REvent → RetryRun
  | 0, calls, evs => ⟨fallback, calls, evs⟩
  | fuel + 1, calls, evs =>
    match work (calls + 1) with
    | .ok s =>
      if s = "" then
        ⟨"", calls + 1, evs ++ [.statusProcessing, .emptyNotice]⟩
      else
        ⟨s, calls + 1, evs ++ [.statusProcessing]⟩
    | .error _ =>
      if fuel = 0 then
        ⟨fallback, calls + 1, evs ++ [.statusProcessing, .statusExhausted]⟩
      else
        retryAux work fallback fuel (calls + 1)
          (evs ++ [.statusProcessing, .statusRetry, .sleep 2])

/-- `_process_with_retry(update, context, initial_message, process_func,
process_input, fallback_message)` with `max_retries = 3`, `retry_delay = 2`:
attempt the work up to 3 times; a non-empty response is returned at once; an
empty response is replied to and `""` is returned without retrying; a raise
sleeps 2 and retries, or returns the fallback on the third failure. -/
def _process_with_retry (work : Nat → Except Unit String) (fallback : String) :
    RetryRun :=
  retryAux work fallback 3 0 []

/-- The fixed reply of `handle_text` to an empty message text. -/
def textPromptRequest : String :=
  "Eh, kirimin dulu dong teks copywriting yang mau di-roast!"

/-- The initial status reply of `handle_text`. -/
def textReceivedMsg : String :=
  "Copywriting lo udah gue terima nih! jangan kabur lo!"

/-- The initial status reply of `handle_image`. -/
def imageReceivedMsg : String :=
  "Gambar copywriting lo udah gue terima nih! Bentar ya, lagi gue bedah... \uf8ffüßê"

/-- Outcome of one `handle_text` run: the user table afterwards, the
`reply_text` messages sent (initial status message, then the final response),
and how many times the generation client was invoked. -/
structure TextRun where
  db : List UserRecord
  sent : List String
  calls : Nat
deriving DecidableEq, Repr

/-- `handle_text(update, context)`: an empty message text is answered with a
fixed prompt-request reply and the handler returns at once; otherwise the
prompt is built from the current mode via `str.format`, the request runs
through `_process_with_retry` with `self.fallback_text`, and on a truthy
(non-empty) result the initial message is deleted, `usage_count` is
incremented, and the result is sent.  The generation client
`_generate_text_response` is abstracted as `work prompt`. -/
def handle_text (mode : BotMode) (db : List UserRecord) (uid : Nat)
    (msg : String) (work : String → Nat → Except Unit String) : TextRun :=
  if msg = "" then
    ⟨db, [textPromptRequest], 0⟩
  else
    let prompt := formatPrompt mode msg
    let pr := _process_with_retry (work prompt) fallback_text
    if pr.result = "" then
      ⟨db, [textReceivedMsg], pr.calls⟩
    else
      ⟨(DatabaseManager.increment_usage_count db uid).1,
       [textReceivedMsg, pr.result], pr.calls⟩

/-- Outcome of one `handle_image` run: the user table afterwards, the
`reply_text` messages sent, the number of generation-client invocations,
whether the downloaded temp file `downloads/{file_id}.jpg` existed while the
request was being processed, whether it still exists after the handler
returns, and whether an exception escaped the handler. -/
structure ImageRun where
  db : List UserRecord
  sent : List String
  calls : Nat
  fileDuringProcessing : Bool
  fileAfterReturn : Bool
  escaped : Bool
deriving DecidableEq, Repr

/-- The `finally` clause of `handle_image`: `if image_path.exists():
image_path.unlink()` (its own `except` only logs). -/
def cleanupTempFile (fileExists : Bool) : Bool :=
  if fileExists then false else fileExists

/-- `handle_image(update, context)`: download the photo to
`downloads/{file_id}.jpg`, then inside `try:` run `_process_with_retry` with
`_generate_image_response` (abstracted as `work`) and `self.fallback_image`;
on a truthy result delete the initial message, increment `usage_count` and
`image_usage_count`, and send the result; `finally:` delete the temp file.
`deleteMsgRaises` models the `delete_message` transport call raising inside
the `try:` block, in which case the increments and the reply are skipped and
the exception escapes the handler (after the `finally:` cleanup). -/
def handle_image (db : List UserRecord) (uid : Nat)
    (work : Nat → Except Unit String) (deleteMsgRaises : Bool) : ImageRun :=
  let fileDuring := true
  let pr := _process_with_retry work fallback_image
  let inner : Except Unit (List UserRecord × List String) :=
    if pr.result = "" then
      Except.ok (db, [imageReceivedMsg])
    else if deleteMsgRaises then
      Except.error ()
    else
      Except.ok
        ((DatabaseManager.increment_image_usage_count
            (DatabaseManager.increment_usage_count db uid).1 uid).1,
         [imageReceivedMsg, pr.result])
  let fileAfter := cleanupTempFile fileDuring
  match inner with
  | .ok (db2, msgs) => ⟨db2, msgs, pr.calls, fileDuring, fileAfter, false⟩
  | .error _ => ⟨db, [imageReceivedMsg], pr.calls, fileDuring, fileAfter, true⟩

end RoastBot

/-- Number of positions at which `pat` occurs as a contiguous block of `s`
(the formal reading of "contains ... verbatim exactly once": exactly one
occurrence position). -/
def countSub (pat : List Char) : List Char → Nat
  | [] => 0
  | c :: rest =>
    (if pat = (c :: rest).take pat.length then 1 else 0) + countSub pat rest

/-- Occurrence-position count on strings. -/
def countOccs (pat s : String) : Nat :=
  countSub pat.data s.data

/-- Transport events emitted by `k` consecutive failed, retried attempts. -/
def retriedEvents : Nat → List RoastBot.REvent
  | 0 => []
  | k + 1 =>
    retriedEvents k ++ [.statusProcessing, .statusRetry, .sleep 2]

namespace RoastBot

lemma retryAux_ok_empty {work : Nat → Except Unit String} {fallback : String}
    {fuel calls : Nat} {evs : List REvent} (h : work (calls + 1) = Except.ok "") :
    retryAux work fallback (fuel + 1) calls evs =
      ⟨"", calls + 1, evs ++ [.statusProcessing, .emptyNotice]⟩ := by
  simp [retryAux, h]

lemma retryAux_ok {work : Nat → Except Unit String} {fallback s : String}
    {fuel calls : Nat} {evs : List REvent} (h : work (calls + 1) = Except.ok s)
    (hs : s ≠ "") :
    retryAux work fallback (fuel + 1) calls evs =
      ⟨s, calls + 1, evs ++ [.statusProcessing]⟩ := by
  simp [retryAux, h, hs]

lemma retryAux_err_last {work : Nat → Except Unit String} {fallback : String}
    {calls : Nat} {evs : List REvent} (h : work (calls + 1) = Except.error ()) :
    retryAux work fallback 1 calls evs =
      ⟨fallback, calls + 1, evs ++ [.statusProcessing, .statusExhausted]⟩ := by
  simp [retryAux, h]

lemma retryAux_err {work : Nat → Except Unit String} {fallback : String}
    {fuel calls : Nat} {evs : List REvent} (h : work (calls + 1) = Except.error ())
    (hf : fuel ≠ 0) :
    retryAux work fallback (fuel + 1) calls evs =
      retryAux work fallback fuel (calls + 1)
        (evs ++ [.statusProcessing, .statusRetry, .sleep 2]) := by
  simp [retryAux, h, hf]

end RoastBot

/-- C1: if the unit of work fails exactly `k` times and then succeeds with
non-empty content, for `k < 3`, `_process_with_retry` invokes it exactly
`k + 1` times and returns that content (with a retry status edit and a fixed
`sleep 2` after each failed attempt); if the work fails on every invocation,
it is invoked exactly 3 times (`max_retries = 3`, delay 2 between failed
attempts) and the caller-supplied fallback is returned. -/
theorem C1_retry_attempts_and_fallback (work : Nat → Except Unit String)
    (fallback s : String) (k : Nat) :
    (k < 3 → (∀ i, 1 ≤ i → i ≤ k → work i = Except.error ()) →
      work (k + 1) = Except.ok s → s ≠ "" →
      RoastBot._process_with_retry work fallback =
        ⟨s, k + 1, retriedEvents k ++ [.statusProcessing]⟩)
    ∧ ((∀ i, 1 ≤ i → i ≤ 3 → work i = Except.error ()) →
      RoastBot._process_with_retry work fallback =
        ⟨fallback, 3, retriedEvents 2 ++ [.statusProcessing, .statusExhausted]⟩) := by
  constructor
  · intro hk hfail hok hs
    interval_cases k
    · rw [RoastBot._process_with_retry,
        RoastBot.retryAux_ok hok hs]
      simp [retriedEvents]
    · rw [RoastBot._process_with_retry,
        RoastBot.retryAux_err (hfail 1 (by norm_num) (by norm_num)) (by norm_num),
        RoastBot.retryAux_ok hok hs]
      simp [retriedEvents]
    · rw [RoastBot._process_with_retry,
        RoastBot.retryAux_err (hfail 1 (by norm_num) (by norm_num)) (by norm_num),
        RoastBot.retryAux_err (hfail 2 (by norm_num) (by norm_num)) (by norm_num),
        RoastBot.retryAux_ok hok hs]
      simp [retriedEvents]
  · intro hfail
    rw [RoastBot._process_with_retry,
      RoastBot.retryAux_err (hfail 1 (by norm_num) (by norm_num)) (by norm_num),
      RoastBot.retryAux_err (hfail 2 (by norm_num) (by norm_num)) (by norm_num),
      RoastBot.retryAux_err_last (hfail 3 (by norm_num) (by norm_num))]
    simp [retriedEvents]

/-- Witness for C1: a work that fails twice then answers "mantap" is invoked
3 times and its content returned; a work that always fails is invoked 3 times
and the fallback "fb" returned. -/
theorem C1_retry_attempts_and_fallback_witness :
    (RoastBot._process_with_retry
        (fun i => if i ≤ 2 then Except.error () else Except.ok "mantap") "fb" =
      ⟨"mantap", 3, retriedEvents 2 ++ [.statusProcessing]⟩)
    ∧ (RoastBot._process_with_retry (fun _ => Except.error ()) "fb" =
      ⟨"fb", 3, retriedEvents 2 ++ [.statusProcessing, .statusExhausted]⟩) :=
  ⟨(C1_retry_attempts_and_fallback
      (fun i => if i ≤ 2 then Except.error () else Except.ok "mantap") "fb" "mantap" 2).1
      (by norm_num)
      (by intro i h1 h2; interval_cases i <;> rfl)
      (by norm_num) (by decide),
   (C1_retry_attempts_and_fallback (fun _ => Except.error ()) "fb" "" 0).2
      (by intro i _ _; rfl)⟩

/-- C3: a unit of work that returns empty content (no error) on the first
invocation makes `_process_with_retry` stop after exactly 1 invocation with no
retry event, send the explanatory "API speechless" reply, and return `""` —
which differs from any non-empty caller-supplied fallback. -/
theorem C3_empty_response_single_attempt (work : Nat → Except Unit String)
    (fallback : String) (h : work 1 = Except.ok "") (hfb : fallback ≠ "") :
    RoastBot._process_with_retry work fallback =
      ⟨"", 1, [.statusProcessing, .emptyNotice]⟩
    ∧ (RoastBot._process_with_retry work fallback).result ≠ fallback := by
  have heq : RoastBot._process_with_retry work fallback =
      ⟨"", 1, [.statusProcessing, .emptyNotice]⟩ := by
    rw [RoastBot._process_with_retry, RoastBot.retryAux_ok_empty h]
    simp
  refine ⟨heq, ?_⟩
  rw [heq]
  exact fun he => hfb he.symm

/-- Witness for C3 at the program's own text fallback message. -/
theorem C3_empty_response_single_attempt_witness :
    RoastBot._process_with_retry (fun _ => Except.ok "") RoastBot.fallback_text =
      ⟨"", 1, [.statusProcessing, .emptyNotice]⟩
    ∧ (RoastBot._process_with_retry (fun _ => Except.ok "")
        RoastBot.fallback_text).result ≠ RoastBot.fallback_text :=
  C3_empty_response_single_attempt (fun _ => Except.ok "") RoastBot.fallback_text
    rfl (by decide)

/-- C6: `_process_with_retry` is total over any outcome pattern of the unit of
work — its string result is always either the caller-supplied fallback, the
empty-result marker `""`, or non-empty content produced by the work on one of
the at most 3 invocations; no work failure propagates out of it. -/
theorem C6_retry_always_resolves (work : Nat → Except Unit String)
    (fallback : String) :
    (RoastBot._process_with_retry work fallback).result = fallback
    ∨ (RoastBot._process_with_retry work fallback).result = ""
    ∨ (∃ i, 1 ≤ i ∧ i ≤ 3 ∧
        work i = Except.ok ((RoastBot._process_with_retry work fallback).result) ∧
        (RoastBot._process_with_retry work fallback).result ≠ "") := by
  rcases h1 : work 1 with u1 | s1
  · rcases h2 : work 2 with u2 | s2
    · rcases h3 : work 3 with u3 | s3
      · cases u1; cases u2; cases u3
        left
        rw [RoastBot._process_with_retry,
          RoastBot.retryAux_err h1 (by norm_num),
          RoastBot.retryAux_err h2 (by norm_num),
          RoastBot.retryAux_err_last h3]
      · cases u1; cases u2
        by_cases hs : s3 = ""
        · subst hs
          right; left
          rw [RoastBot._process_with_retry,
            RoastBot.retryAux_err h1 (by norm_num),
            RoastBot.retryAux_err h2 (by norm_num),
            RoastBot.retryAux_ok_empty h3]
        · right; right
          refine ⟨3, by norm_num, by norm_num, ?_, ?_⟩ <;>
            rw [RoastBot._process_with_retry,
              RoastBot.retryAux_err h1 (by norm_num),
              RoastBot.retryAux_err h2 (by norm_num),
              RoastBot.retryAux_ok h3 hs]
          · exact h3
          · exact hs
    · cases u1
      by_cases hs : s2 = ""
      · subst hs
        right; left
        rw [RoastBot._process_with_retry,
          RoastBot.retryAux_err h1 (by norm_num),
          RoastBot.retryAux_ok_empty h2]
      · right; right
        refine ⟨2, by norm_num, by norm_num, ?_, ?_⟩ <;>
          rw [RoastBot._process_with_retry,
            RoastBot.retryAux_err h1 (by norm_num),
            RoastBot.retryAux_ok h2 hs]
        · exact h2
        · exact hs
  · by_cases hs : s1 = ""
    · subst hs
      right; left
      rw [RoastBot._process_with_retry, RoastBot.retryAux_ok_empty h1]
    · right; right
      refine ⟨1, by norm_num, by norm_num, ?_, ?_⟩ <;>
        rw [RoastBot._process_with_retry, RoastBot.retryAux_ok h1 hs]
      · exact h1
      · exact hs

/-- Per-row relation: identity fields are preserved and counters do not
decrease. -/
def countersMono (r r' : UserRecord) : Prop :=
  r.user_id = r'.user_id ∧ r.username = r'.username ∧
  r.join_time = r'.join_time ∧ r.usage_count ≤ r'.usage_count ∧
  r.image_usage_count ≤ r'.image_usage_count

/-- Table-wide counter monotonicity: same rows in the same order, each related
by `countersMono`. -/
def dbCountersMono (db db' : List UserRecord) : Prop :=
  List.Forall₂ countersMono db db'

lemma countersMono_refl (r : UserRecord) : countersMono r r :=
  ⟨rfl, rfl, rfl, le_refl _, le_refl _⟩

lemma dbCountersMono_refl (db : List UserRecord) : dbCountersMono db db := by
  induction db with
  | nil => exact List.Forall₂.nil
  | cons r rest ih => exact List.Forall₂.cons (countersMono_refl r) ih

lemma dbCountersMono_map (g : UserRecord → UserRecord)
    (hg : ∀ r, countersMono r (g r)) (db : List UserRecord) :
    dbCountersMono db (db.map g) := by
  induction db with
  | nil => exact List.Forall₂.nil
  | cons r rest ih => exact List.Forall₂.cons (hg r) ih

lemma countersMono_bumpIf (uid : Nat) (field : DatabaseManager.UserField)
    (r : UserRecord) :
    countersMono r
      (if r.user_id == uid then DatabaseManager.bumpField field r else r) := by
  by_cases h : r.user_id == uid
  · cases field <;>
      simp [h, DatabaseManager.bumpField, countersMono, Nat.le_succ]
  · simp [h, countersMono_refl]

lemma dbCountersMono_increment (db : List UserRecord) (uid : Nat)
    (field : DatabaseManager.UserField) :
    dbCountersMono db (DatabaseManager._increment_field db uid field).1 :=
  dbCountersMono_map _ (countersMono_bumpIf uid field) db

lemma countersMono_trans {a b c : UserRecord} (h1 : countersMono a b)
    (h2 : countersMono b c) : countersMono a c := by
  obtain ⟨i1, u1, j1, c1, d1⟩ := h1
  obtain ⟨i2, u2, j2, c2, d2⟩ := h2
  exact ⟨i1.trans i2, u1.trans u2, j1.trans j2, c1.trans c2, d1.trans d2⟩

lemma dbCountersMono_increment_increment (db : List UserRecord) (uid : Nat)
    (f1 f2 : DatabaseManager.UserField) :
    dbCountersMono db
      (DatabaseManager._increment_field
        (DatabaseManager._increment_field db uid f1).1 uid f2).1 := by
  simp only [DatabaseManager._increment_field, List.map_map]
  exact dbCountersMono_map _
    (fun r => countersMono_trans (countersMono_bumpIf uid f1 r)
      (countersMono_bumpIf uid f2 _)) db

/-- C4 (amended): `_increment_field` for a user identifier with no row does
not raise and leaves the table unchanged (the `UPDATE` matches zero rows), but
it reports success: it returns `True`, not a failure indicator. -/
theorem C4_increment_missing_user_reports_success (db : List UserRecord)
    (uid : Nat) (field : DatabaseManager.UserField)
    (h : ∀ r ∈ db, r.user_id ≠ uid) :
    DatabaseManager._increment_field db uid field = (db, true) := by
  rw [DatabaseManager._increment_field]
  refine Prod.ext ?_ rfl
  simp only
  rw [List.map_congr_left (g := id) ?_, List.map_id]
  intro r hr
  simp [h r hr]

/-- Witness for C4 (amended) at the empty table. -/
theorem C4_increment_missing_user_reports_success_witness :
    DatabaseManager._increment_field ([] : List UserRecord) 42
      DatabaseManager.UserField.usage_count = ([], true) :=
  C4_increment_missing_user_reports_success [] 42 _ (by simp)

/-- Counterexample to C4 as stated: incrementing `usage_count` for user 42 in
an empty table does not return a falsy/false result — it returns `True`. -/
theorem C4_increment_missing_user_not_false :
    ¬ (DatabaseManager.increment_usage_count ([] : List UserRecord) 42).2 = false := by
  decide

/-- C7: starting from a table without user `uid`, calling `add_user` twice
with identifier `uid` reports success (`True`) on the first call and a no-op
(`False`) on the second, and leaves exactly one row with that identifier. -/
theorem C7_add_user_idempotent (db : List UserRecord) (uid : Nat)
    (u1 t1 u2 t2 : String) (h : ∀ r ∈ db, r.user_id ≠ uid) :
    (DatabaseManager.add_user db uid u1 t1).2 = true
    ∧ (DatabaseManager.add_user (DatabaseManager.add_user db uid u1 t1).1
        uid u2 t2).2 = false
    ∧ ((DatabaseManager.add_user (DatabaseManager.add_user db uid u1 t1).1
        uid u2 t2).1.filter (fun r => r.user_id == uid)).length = 1 := by
  have hany : db.any (fun r => r.user_id == uid) = false := by
    rw [List.any_eq_false]
    intro r hr
    simp [h r hr]
  have hfilter : db.filter (fun r => r.user_id == uid) = [] := by
    rw [List.filter_eq_nil_iff]
    intro r hr
    simp [h r hr]
  have h1 : DatabaseManager.add_user db uid u1 t1 =
      (db ++ [⟨uid, u1, t1, 0, 0⟩], true) := by
    rw [DatabaseManager.add_user, if_neg (by simp [hany])]
  have h2 : DatabaseManager.add_user (db ++ [⟨uid, u1, t1, 0, 0⟩]) uid u2 t2 =
      (db ++ [⟨uid, u1, t1, 0, 0⟩], false) := by
    rw [DatabaseManager.add_user, if_pos (by simp [List.any_append])]
  refine ⟨by rw [h1], by rw [h1]; exact congrArg Prod.snd h2, ?_⟩
  rw [h1]
  simp only
  rw [h2]
  simp [List.filter_append, hfilter]

/-- Witness for C7 starting from the empty table. -/
theorem C7_add_user_idempotent_witness :
    (DatabaseManager.add_user ([] : List UserRecord) 1 "alice" "t1").2 = true
    ∧ (DatabaseManager.add_user
        (DatabaseManager.add_user ([] : List UserRecord) 1 "alice" "t1").1
        1 "bob" "t2").2 = false
    ∧ ((DatabaseManager.add_user
        (DatabaseManager.add_user ([] : List UserRecord) 1 "alice" "t1").1
        1 "bob" "t2").1.filter (fun r => r.user_id == 1)).length = 1 :=
  C7_add_user_idempotent [] 1 "alice" "t1" "bob" "t2" (by simp)

/-- C9: `add_user` for an identifier that already has a row returns `False`
and leaves the whole table — in particular the existing row's username, join
time and both counters — exactly as it was, even with a different username. -/
theorem C9_add_user_frame (db : List UserRecord) (uid : Nat) (u t : String)
    (h : ∃ r ∈ db, r.user_id = uid) :
    DatabaseManager.add_user db uid u t = (db, false) := by
  obtain ⟨r, hr, hid⟩ := h
  have : db.any (fun r => r.user_id == uid) = true :=
    List.any_eq_true.mpr ⟨r, hr, by simp [hid]⟩
  rw [DatabaseManager.add_user, if_pos (by simp [this])]

/-- Witness for C9: re-adding user 5 with a different username leaves the
table unchanged and returns `False`. -/
theorem C9_add_user_frame_witness :
    DatabaseManager.add_user [⟨5, "u", "t", 1, 2⟩] 5 "v" "t9" =
      ([⟨5, "u", "t", 1, 2⟩], false) :=
  C9_add_user_frame [⟨5, "u", "t", 1, 2⟩] 5 "v" "t9" ⟨⟨5, "u", "t", 1, 2⟩, by simp, rfl⟩

namespace RoastBot

set_option maxRecDepth 16000 in
/-- Sanity link: each template is its pre-placeholder part, the single
`{text}` replacement field, and its post-placeholder part, so `str.format`
on it is exactly `promptPre m ++ t ++ promptPost m`. -/
lemma prompts_split (m : BotMode) :
    prompts m = promptPre m ++ "{text}" ++ promptPost m := by
  cases m <;> decide

end RoastBot

/-- C2 (amended): across both handlers every row keeps its identity fields
and its counters never decrease; `handle_text` increments `usage_count`
exactly when `_process_with_retry` returns a truthy (non-empty) string —
which includes the run where that string is the fallback text, so
fallback-only deliveries do count as usage; and `handle_image` increments
`usage_count` and `image_usage_count` exactly when the orchestrator returns
a truthy string (fallback included) and no transport error interrupts the
relay sequence before the increments. -/
theorem C2_counters_monotone_and_increment_on_truthy (mode : BotMode)
    (db : List UserRecord) (uid : Nat) (msg : String)
    (work : String → Nat → Except Unit String)
    (iwork : Nat → Except Unit String) (b : Bool) :
    dbCountersMono db (RoastBot.handle_text mode db uid msg work).db
    ∧ dbCountersMono db (RoastBot.handle_image db uid iwork b).db
    ∧ (RoastBot.handle_text mode db uid msg work).db =
        (if msg = "" then db
         else if (RoastBot._process_with_retry
             (work (RoastBot.formatPrompt mode msg))
             RoastBot.fallback_text).result = "" then db
         else (DatabaseManager.increment_usage_count db uid).1)
    ∧ (RoastBot.handle_image db uid iwork b).db =
        (if (RoastBot._process_with_retry iwork
             RoastBot.fallback_image).result = "" then db
         else if b then db
         else (DatabaseManager.increment_image_usage_count
             (DatabaseManager.increment_usage_count db uid).1 uid).1) := by
  refine ⟨?_, ?_, ?_, ?_⟩
  · by_cases hm : msg = ""
    · simp [RoastBot.handle_text, hm, dbCountersMono_refl]
    · by_cases hr : (RoastBot._process_with_retry
          (work (RoastBot.formatPrompt mode msg))
          RoastBot.fallback_text).result = ""
      · simp [RoastBot.handle_text, hm, hr, dbCountersMono_refl]
      · simp [RoastBot.handle_text, hm, hr]
        exact dbCountersMono_increment db uid _
  · by_cases hr : (RoastBot._process_with_retry iwork
        RoastBot.fallback_image).result = ""
    · simp [RoastBot.handle_image, hr, dbCountersMono_refl]
    · cases b
      · simp [RoastBot.handle_image, hr,
          DatabaseManager.increment_usage_count,
          DatabaseManager.increment_image_usage_count]
        exact dbCountersMono_increment_increment db uid _ _
      · simp [RoastBot.handle_image, hr, dbCountersMono_refl]
  · by_cases hm : msg = ""
    · simp [RoastBot.handle_text, hm]
    · by_cases hr : (RoastBot._process_with_retry
          (work (RoastBot.formatPrompt mode msg))
          RoastBot.fallback_text).result = ""
      · simp [RoastBot.handle_text, hm, hr]
      · simp [RoastBot.handle_text, hm, hr]
  · by_cases hr : (RoastBot._process_with_retry iwork
        RoastBot.fallback_image).result = ""
    · simp [RoastBot.handle_image, hr]
    · cases b <;> simp [RoastBot.handle_image, hr]

set_option maxRecDepth 16000 in
/-- Counterexample to C2 as stated: with a generation call that raises on
every attempt, only the fallback text is delivered, yet `handle_text`
increments the user's `usage_count` from 0 to 1. -/
theorem C2_fallback_only_path_increments_counter :
    (RoastBot.handle_text .SPICY [⟨7, "u", "t0", 0, 0⟩] 7 "hi"
        (fun _ _ => Except.error ())).db = [⟨7, "u", "t0", 1, 0⟩]
    ∧ (RoastBot._process_with_retry (fun _ => Except.error ())
        RoastBot.fallback_text).result = RoastBot.fallback_text := by
  constructor <;> decide

/-- C5: on every exit path of `handle_image` — success, empty response,
generation failing on all retries, or a transport error escaping the handler
— the downloaded temp file exists while the request is processed and is
deleted by the `finally:` clause before the handler returns. -/
theorem C5_temp_file_lifecycle (db : List UserRecord) (uid : Nat)
    (work : Nat → Except Unit String) (b : Bool) :
    (RoastBot.handle_image db uid work b).fileDuringProcessing = true
    ∧ (RoastBot.handle_image db uid work b).fileAfterReturn = false := by
  unfold RoastBot.handle_image
  dsimp only
  split <;> simp [RoastBot.cleanupTempFile]

/-- C8 (amended): `build(mode, text)` is the pure function `formatPrompt`
(deterministic by construction — equal inputs give the same concatenation),
and the resulting prompt contains the literal input text verbatim at least
once, at the template's single placeholder position; it can occur more than
once when the input also occurs in the fixed template text. -/
theorem C8_prompt_contains_input (m : BotMode) (t : String) :
    RoastBot.formatPrompt m t =
      RoastBot.promptPre m ++ t ++ RoastBot.promptPost m
    ∧ ∃ l r, RoastBot.formatPrompt m t = l ++ t ++ r :=
  ⟨rfl, RoastBot.promptPre m, RoastBot.promptPost m, rfl⟩

/-- Counterexample to C8 as stated: the input "a" occurs 85 times in the
built SPICY prompt, not exactly once (it already occurs in the fixed
template text). -/
theorem C8_input_occurs_more_than_once :
    countOccs "a" (RoastBot.formatPrompt .SPICY "a") = 85
    ∧ countOccs "a" (RoastBot.formatPrompt .SPICY "a") ≠ 1 := by
  constructor <;> · set_option maxRecDepth 4000 in decide

/-- C10: `handle_text` on an empty message text replies with the fixed
prompt-request message and returns at once: the table is unchanged (no
counter incremented) and the generation client is invoked 0 times (no prompt
is built). -/
theorem C10_empty_text_early_return (mode : BotMode) (db : List UserRecord)
    (uid : Nat) (work : String → Nat → Except Unit String) :
    RoastBot.handle_text mode db uid "" work =
      ⟨db, [RoastBot.textPromptRequest], 0⟩ := by
  simp [RoastBot.handle_text]
